import Mathlib

/-!
Shallow embedding of the Image-Tracker Flask application (src/app.py) and
proofs about its behaviour.  Pure request handlers are modelled as Lean
functions; the sqlite hit store is modelled as a list of `HitRecord`s
(newest first, matching the prepend order used by `insert_hit` below and
reversed by `fetch_hits` to model `ORDER BY id DESC` on an append-only
table); the flask-limiter fixed window is modelled as an explicit counter
state; outbound network effects (the ip-api.com fallback request) are
modelled as an input describing the outcome of the request.
-/

namespace ImageTracker

/-- A row of the `hits` table (src/app.py, `init_db` / `insert_hit`).
The five location fields are independently nullable, as in the schema. -/
structure HitRecord where
  track_id : String
  user_id : String
  ip : String
  ua : String
  ts : String
  lat : Option Int
  lon : Option Int
  city : Option String
  region : Option String
  country : Option String
deriving Repr, DecidableEq

/-- The hit store.  `insert_hit` appends one row; we keep newest first. -/
def insert_hit (store : List HitRecord) (h : HitRecord) : List HitRecord :=
  h :: store

/-- `fetch_hits(limit=1000)`: `SELECT ... ORDER BY id DESC LIMIT ?` —
the newest `limit` rows, newest first, which in this newest-first
representation is a prefix of the store.  Both callers use the default
limit of 1000. -/
def fetch_hits (store : List HitRecord) (limit : Nat) : List HitRecord :=
  store.take limit

/-- The parts of an inbound HTTP request the handlers read. -/
structure Request where
  xff : Option String
  remote_addr : String
  ua : Option String
  session_user_id : Option String
deriving Repr, DecidableEq

/-- `request.headers.get("X-Forwarded-For", request.remote_addr).split(",")[0].strip()` -/
def clientIp (req : Request) : String :=
  (((req.xff.getD req.remote_addr).splitOn ",").headD "").trim

/-- The parts of the Flask session the handlers read. -/
structure Session where
  admin : Bool
  user_id : Option String
  username : Option String
deriving Repr, DecidableEq

/-- `session.get("user_id", "anonymous")` -/
def sessionUserId (sess : Session) : String :=
  sess.user_id.getD "anonymous"

/-- The JSON document returned by ip-api.com, fields as requested by
`geo_ip`: `status,message,lat,lon,city,regionName,country`.  Every field
is optional, as `dict.get` returns `None` for a missing key. -/
structure GeoJson where
  status : Option String
  lat : Option Int
  lon : Option Int
  city : Option String
  regionName : Option String
  country : Option String
deriving Repr, DecidableEq

/-- Outcome of the outbound `requests.get(...)` call inside `geo_ip`:
either some exception (timeout, connection error, malformed JSON — all
caught by the bare `except Exception`), or a decoded JSON body. -/
inductive FetchOutcome where
  | err
  | ok (j : GeoJson)
deriving Repr, DecidableEq

/-- The `timeout=4` argument of the fallback `requests.get` in `geo_ip`. -/
def GEO_TIMEOUT : Nat := 4

/-- Result quintuple of `geo_ip`: (lat, lon, city, regionName, country). -/
abbrev GeoResult :=
  Option Int × Option Int × Option String × Option String × Option String

/-- The fallback `geo_ip` (src/app.py lines 118-130): on any exception the
function returns five `None`s; on a decoded body it returns the five
fields only when `status == "success"`, otherwise five `None`s. -/
def geo_ip (o : FetchOutcome) : GeoResult :=
  match o with
  | .err => (none, none, none, none, none)
  | .ok j =>
      if j.status = some "success" then
        (j.lat, j.lon, j.city, j.regionName, j.country)
      else
        (none, none, none, none, none)

/-- A geo fetch outcome that did not succeed: exception, missing status,
or a non-success status. -/
def geoFailed (o : FetchOutcome) : Prop :=
  match o with
  | .err => True
  | .ok j => j.status ≠ some "success"

instance (o : FetchOutcome) : Decidable (geoFailed o) := by
  unfold geoFailed
  cases o <;> infer_instance

/-- HTTP responses produced by the handlers. -/
inductive Resp where
  | page (template : String) (rows : List HitRecord)
  | redirect (url : String)
  | notFound
  | file (name : String) (mimetype : String) (asAttachment : Bool)
  | bytes (body : List Nat) (mimetype : String)
  | tooMany
  | jsonError (code : Nat)
  | jsonRows (rows : List HitRecord)
deriving Repr, DecidableEq

/-- Whether a response is an HTTP redirect. -/
def Resp.isRedirect : Resp → Bool
  | .redirect _ => true
  | _ => false

/-- The hit rows a response exposes to its caller (page table data or the
JSON array); every other response exposes none. -/
def Resp.rows : Resp → List HitRecord
  | .page _ rs => rs
  | .jsonRows rs => rs
  | _ => []

/-- The fixed 1×1 transparent PNG byte string returned by `track`
(src/app.py line 347), byte for byte. -/
def PNG1 : List Nat :=
  [137, 80, 78, 71, 13, 10, 26, 10,
   0, 0, 0, 13, 73, 72, 68, 82,
   0, 0, 0, 1, 0, 0, 0, 1,
   8, 6, 0, 0, 0, 31, 21, 196, 137,
   0, 0, 0, 10, 73, 68, 65, 84,
   120, 156, 99, 96, 0, 0, 0, 2, 0, 1,
   226, 33, 188, 51,
   0, 0, 0, 0, 73, 69, 78, 68,
   174, 66, 96, 130]

/-- Per-address state of the flask-limiter fixed window backing the
`@limiter.limit("60 per minute")` decorator on `track`: the expiry time of
the current window (0 = no window yet) and the count inside it. -/
structure LimiterState where
  expiry : Nat
  count : Nat
deriving Repr, DecidableEq

def initLimiter : LimiterState := ⟨0, 0⟩

/-- The per-route ceiling `60 per minute` on `track`. -/
def RATE_LIMIT : Nat := 60

/-- The window length of `per minute`, in seconds. -/
def RATE_WINDOW : Nat := 60

/-- Fixed-window rate check at time `t` (seconds): an expired (or absent)
window starts afresh with count 1; inside a live window the request passes
while the count is below the ceiling and is rejected otherwise. -/
def rateCheck (s : LimiterState) (t : Nat) : Bool × LimiterState :=
  if s.expiry ≤ t then (true, ⟨t + RATE_WINDOW, 1⟩)
  else if s.count < RATE_LIMIT then (true, ⟨s.expiry, s.count + 1⟩)
  else (false, s)

/-- Server state threaded through the beacon handlers: the hit store and
the limiter state of the (single) calling network address. -/
structure ServerState where
  hits : List HitRecord
  limiter : LimiterState
deriving Repr, DecidableEq

/-- Build the row `insert_hit` stores: `ts` is the UTC ISO time with a
trailing `"Z"` appended, the geo quintuple fills the location fields. -/
def mkHit (track_id user_id ip ua now : String) (g : GeoResult) : HitRecord :=
  ⟨track_id, user_id, ip, ua, now ++ "Z", g.1, g.2.1, g.2.2.1, g.2.2.2.1, g.2.2.2.2⟩

/-- `GET /track/<track_id>` (src/app.py lines 339-348).  The limiter
decorator runs first: on ceiling breach the view body is never entered
(no geo call, no insert) and a 429 is returned.  Otherwise the handler
enriches, records the hit — with no check that `track_id` was ever issued
or that any artifact file exists — and answers the constant 1×1 PNG. -/
def track (st : ServerState) (t : Nat) (req : Request) (sess : Session)
    (track_id : String) (geo : FetchOutcome) (now : String) :
    ServerState × Resp :=
  match rateCheck st.limiter t with
  | (true, ls) =>
      let ip := clientIp req
      let ua := req.ua.getD ""
      let g := geo_ip geo
      let user_id := sessionUserId sess
      let hits := insert_hit st.hits (mkHit track_id user_id ip ua now g)
      (⟨hits, ls⟩, .bytes PNG1 "image/png")
  | (false, ls) =>
      (⟨st.hits, ls⟩, .tooMany)

/-- `GET /proxy_image/<track_id>/<filename>` (src/app.py lines 326-336):
records the hit first, then checks whether the file exists; a missing file
yields 404 but the hit has already been inserted. `storage` is the set of
file names present under `generated/`. -/
def proxy_image (st : ServerState) (storage : List String) (req : Request)
    (sess : Session) (track_id filename : String) (geo : FetchOutcome)
    (now : String) : ServerState × Resp :=
  let ip := clientIp req
  let ua := req.ua.getD ""
  let g := geo_ip geo
  let user_id := sessionUserId sess
  let hits := insert_hit st.hits (mkHit track_id user_id ip ua now g)
  if filename ∈ storage then
    (⟨hits, st.limiter⟩, .file filename "image/png" false)
  else
    (⟨hits, st.limiter⟩, .notFound)

/-- `GET /dl_pdf/<track_id>/<pdfname>` (src/app.py lines 351-362): records
the hit, then either 404s on a missing file or streams the PDF as an
attachment (`send_file(..., as_attachment=True, mimetype="application/pdf")`). -/
def dl_pdf (st : ServerState) (storage : List String) (req : Request)
    (sess : Session) (track_id pdfname : String) (geo : FetchOutcome)
    (now : String) : ServerState × Resp :=
  let ip := clientIp req
  let ua := req.ua.getD ""
  let g := geo_ip geo
  let user_id := sessionUserId sess
  let hits := insert_hit st.hits (mkHit track_id user_id ip ua now g)
  if pdfname ∈ storage then
    (⟨hits, st.limiter⟩, .file pdfname "application/pdf" true)
  else
    (⟨hits, st.limiter⟩, .notFound)

/-- Python's `str.lower()`, modelled characterwise. -/
def lowerStr (s : String) : String :=
  ⟨s.data.map Char.toLower⟩

/-- Python's `str.endswith(suffix)`, modelled on the character lists. -/
def endsWithStr (s suffix : String) : Bool :=
  suffix.data.isSuffixOf s.data

/-- The extension → content-type mapping of `download_generated`
(src/app.py lines 370-380), applied to the lowercased name. -/
def mimeFor (name : String) : String :=
  let lname := lowerStr name
  if endsWithStr lname ".svg" then "image/svg+xml"
  else if endsWithStr lname ".png" then "image/png"
  else if endsWithStr lname ".html" then "text/html"
  else if endsWithStr lname ".pdf" then "application/pdf"
  else "application/octet-stream"

/-- `GET /download_generated/<name>` (src/app.py lines 365-381). -/
def download_generated (storage : List String) (name : String) : Resp :=
  if name ∈ storage then .file name (mimeFor name) true
  else .notFound

/-- `GET /logs` (src/app.py lines 384-409): admin-only; non-admin callers
are redirected to the login page; admins get the full, unfiltered store
rendered into the table page. -/
def logs (sess : Session) (store : List HitRecord) : Resp :=
  if sess.admin then .page "logs.html" (fetch_hits store 1000)
  else .redirect "login"

/-- `GET /api/logs` (src/app.py lines 412-432): admin-only; non-admin
callers get a 401 JSON error; admins get the full, unfiltered store. -/
def api_logs (sess : Session) (store : List HitRecord) : Resp :=
  if sess.admin then .jsonRows (fetch_hits store 1000)
  else .jsonError 401

/-! ## Artifact generation (`make`, src/app.py lines 244-323) -/

/-- `shortuuid.uuid()[:8]` (src/app.py line 257): the first 8 characters
of the freshly drawn shortuuid `u`.  No state is consulted: in particular
no set of previously issued identifiers is an input. -/
def issueId (u : String) : String :=
  u.take 8

/-- The two branches of `make`'s format dispatch.  The source reads
`mode = request.form.get("mode", "png")` and tests only `mode == "svg"`;
every other value falls through to the PNG branch. -/
inductive MakeMode where
  | svg
  | png
deriving Repr, DecidableEq

def makeBranch (mode : String) : MakeMode :=
  if mode = "svg" then .svg else .png

/-- `url_for("track", track_id=tid, _external=True)`. -/
def trackUrl (base track_id : String) : String :=
  base ++ "/track/" ++ track_id

/-- `url_for("download_generated", name=name, _external=True)`. -/
def downloadUrl (base name : String) : String :=
  base ++ "/download_generated/" ++ name

/-- `url_for("proxy_image", track_id=tid, filename=fname, _external=True)`. -/
def proxyUrl (base track_id fname : String) : String :=
  base ++ "/proxy_image/" ++ track_id ++ "/" ++ fname

/-- Literal text of the SVG template before the interpolated `track_id`. -/
def svgPre : String :=
  "<?xml version=\"1.0\" encoding=\"utf-8\"?>\n<svg xmlns=\"http://www.w3.org/2000/svg\" width=\"800\" height=\"600\">\n  <rect width=\"100%\" height=\"100%\" fill=\"#fff\"/>\n  <text x=\"10\" y=\"20\" font-size=\"14\">Tracked SVG ID: "

/-- Literal text of the SVG template between `track_id` and `tracked_url`. -/
def svgMid : String :=
  "</text>\n  <image x=\"0\" y=\"0\" width=\"1\" height=\"1\" href=\""

/-- Literal text of the SVG template after `tracked_url`. -/
def svgSuf : String :=
  "\" />\n</svg>"

/-- The SVG artifact produced by `make`'s SVG branch (src/app.py lines
262-267), the f-string with `track_id` and `tracked_url` interpolated. -/
def makeSvg (track_id tracked_url : String) : String :=
  svgPre ++ track_id ++ svgMid ++ tracked_url ++ svgSuf

/-- The HTML wrapper written by the SVG branch (src/app.py lines 276-281). -/
def wrapHtmlSvg (base track_id fname : String) : String :=
  "<!doctype html>\n<html lang=\"en\"><head><meta charset=\"utf-8\"><title>Tracked SVG "
    ++ track_id ++ "</title></head>\n<body>\n  <object data=\""
    ++ downloadUrl base fname
    ++ "\" type=\"image/svg+xml\" width=\"800\" height=\"600\"></object>\n  <img src=\""
    ++ trackUrl base track_id
    ++ "\" width=\"1\" height=\"1\" alt=\"\">\n</body></html>"

/-- The HTML wrapper written by the PNG branch (src/app.py lines 302-308). -/
def wrapHtmlPng (base track_id fname : String) : String :=
  "<!doctype html>\n<html lang=\"en\"><head><meta charset=\"utf-8\"><title>Tracked PNG "
    ++ track_id
    ++ "</title></head>\n<body style=\"margin:20px;font-family:system-ui,Segoe UI,Roboto,Arial;\">\n  <h3>Tracked PNG</h3>\n  <img src=\""
    ++ proxyUrl base track_id fname
    ++ "\" alt=\"Tracked PNG\" style=\"max-width:100%;height:auto;border-radius:8px;border:1px solid #ddd;\"/>\n  <img src=\""
    ++ trackUrl base track_id
    ++ "\" width=\"1\" height=\"1\" alt=\"\">\n</body></html>"

/-- Result of a `POST /make` request: the issued identifier, the files
written to `generated/` in write order (name and textual content; the PNG
and PDF byte streams are abstracted as opaque markers since no claim
inspects them), and the HTTP response.  The handler has no error path:
there is no field for one because the source raises none. -/
structure MakeResult where
  track_id : String
  files : List (String × String)
  resp : Resp
deriving Repr, DecidableEq

/-- `POST /make` (src/app.py lines 244-323).  Requires a logged-in
session; dispatches on `mode` via `makeBranch`; `u` is the shortuuid drawn
at line 257; `base` is the external URL base used by `url_for`. -/
def make (sess : Session) (mode : String) (u : String) (base : String) :
    MakeResult :=
  if ¬ (sess.admin ∨ sess.username.isSome) then
    ⟨"", [], .redirect "login"⟩
  else
    let track_id := issueId u
    match makeBranch mode with
    | .svg =>
        let tracked_url := trackUrl base track_id
        let svg := makeSvg track_id tracked_url
        let fname := "tracked_" ++ track_id ++ ".svg"
        let html_name := "wrapped_" ++ track_id ++ ".html"
        ⟨track_id,
         [(fname, svg), (html_name, wrapHtmlSvg base track_id fname)],
         .page "made_file.html" []⟩
    | .png =>
        let fname := "tracked_" ++ track_id ++ ".png"
        let html_name := "wrapped_" ++ track_id ++ ".html"
        let pdf_name := "wrapped_" ++ track_id ++ ".pdf"
        ⟨track_id,
         [(fname, "<png-bytes>"),
          (html_name, wrapHtmlPng base track_id fname),
          (pdf_name, "<pdf-bytes>")],
         .page "made_file.html" []⟩

/-! ## Substring occurrence counting, for the SVG single-image-reference
property -/

/-- Number of positions of `s` at which `pat` occurs as a prefix of the
remaining list. -/
def countOcc (pat : List Char) (s : List Char) : Nat :=
  match s with
  | [] => 0
  | _ :: t => (if pat.isPrefixOf s then 1 else 0) + countOcc pat t

/-- The characters of `<image`, the opening of an SVG image element. -/
def imgPat : List Char := ['<', 'i', 'm', 'a', 'g', 'e']

/-- Number of `<image` element openings in an SVG document. -/
def imageRefCount (s : String) : Nat :=
  countOcc imgPat s.data

/-- A ping sequence for the rate-limit scenario: `n` identical requests to
`track`, all at time `t`, threading the server state. -/
def trackN (n : Nat) (st : ServerState) (t : Nat) (req : Request)
    (sess : Session) (track_id : String) (geo : FetchOutcome) (now : String) :
    ServerState :=
  match n with
  | 0 => st
  | Nat.succ k =>
      trackN k (track st t req sess track_id geo now).1 t req sess track_id geo now

/-! ## Helper lemmas -/

lemma isPrefixOf_append_of_le {p t : List Char} (b : List Char)
    (h : p.length ≤ t.length) : p.isPrefixOf (t ++ b) = p.isPrefixOf t := by
  induction p generalizing t with
  | nil => simp [List.isPrefixOf]
  | cons q qs ih =>
      cases t with
      | nil => simp at h
      | cons y ys =>
          simp only [List.cons_append, List.isPrefixOf, List.append_eq]
          rw [ih (Nat.le_of_succ_le_succ h)]

lemma countOcc_append_left_free {c : Char} (p : List Char) {a : List Char}
    (b : List Char) (h : c ∉ a) :
    countOcc (c :: p) (a ++ b) = countOcc (c :: p) b := by
  induction a with
  | nil => simp
  | cons x t ih =>
      have hx : (c == x) = false := by
        simp only [beq_eq_false_iff_ne, ne_eq]
        intro hc
        exact h (hc ▸ List.mem_cons_self x t)
      have ht : c ∉ t := fun hm => h (List.mem_cons_of_mem _ hm)
      have hpf : (c :: p).isPrefixOf (x :: (t ++ b)) = false := by
        simp [List.isPrefixOf, hx]
      simp only [List.cons_append, countOcc, List.append_eq, hpf,
        Bool.false_eq_true, if_false, Nat.zero_add]
      exact ih ht

lemma countOcc_append_split (c : Char) (p : List Char) :
    ∀ a b : List Char, (∀ x ∈ a.drop (a.length - p.length), x ≠ c) →
      countOcc (c :: p) (a ++ b) = countOcc (c :: p) a + countOcc (c :: p) b := by
  intro a
  induction a with
  | nil =>
      intro b h
      simp [countOcc]
  | cons x t ih =>
      intro b h
      have hdropsub : ∀ y ∈ t.drop (t.length - p.length),
          y ∈ (x :: t).drop ((x :: t).length - p.length) := by
        intro y hy
        by_cases hle : p.length ≤ t.length
        · have hlen : (x :: t).length - p.length = (t.length - p.length) + 1 := by
            simp only [List.length_cons]
            omega
          rw [hlen, List.drop_succ_cons]
          exact hy
        · have h0 : (x :: t).length - p.length = 0 := by
            simp only [List.length_cons]
            omega
          have h0' : t.length - p.length = 0 := by omega
          rw [h0, List.drop_zero]
          rw [h0', List.drop_zero] at hy
          exact List.mem_cons_of_mem _ hy
      have ht : ∀ y ∈ t.drop (t.length - p.length), y ≠ c :=
        fun y hy => h y (hdropsub y hy)
      have hpref : (c :: p).isPrefixOf (x :: (t ++ b))
          = (c :: p).isPrefixOf (x :: t) := by
        by_cases hxc : x = c
        · have hlen : p.length ≤ t.length := by
            by_contra hlt
            push_neg at hlt
            have h0 : (x :: t).length - p.length = 0 := by
              simp only [List.length_cons]
              omega
            exact h x (by rw [h0, List.drop_zero]; exact List.mem_cons_self x t) hxc
          simp only [List.isPrefixOf]
          rw [isPrefixOf_append_of_le b hlen]
        · have hx : (c == x) = false := by
            simp only [beq_eq_false_iff_ne, ne_eq]
            intro hc
            exact hxc hc.symm
          simp only [List.isPrefixOf, hx, Bool.false_and]
      have hrec := ih b ht
      simp only [List.cons_append, countOcc, List.append_eq]
      rw [hrec]
      simp only [hpref]
      ring

/-- The hit row one allowed ping of `track` inserts, given the fixed
request data of a scenario. -/
def pingHit (req : Request) (sess : Session) (tid : String)
    (geo : FetchOutcome) (now : String) : HitRecord :=
  mkHit tid (sessionUserId sess) (clientIp req) (req.ua.getD "") now (geo_ip geo)

lemma track_allowed (h : List HitRecord) (l : LimiterState) (t : Nat)
    (req : Request) (sess : Session) (tid : String) (geo : FetchOutcome)
    (now : String) (hrate : (rateCheck l t).1 = true) :
    track ⟨h, l⟩ t req sess tid geo now
      = (⟨pingHit req sess tid geo now :: h, (rateCheck l t).2⟩,
         .bytes PNG1 "image/png") := by
  cases hE : rateCheck l t with
  | mk b ls =>
      rw [hE] at hrate
      simp only at hrate
      subst hrate
      simp [track, hE, insert_hit, pingHit]

lemma track_denied (h : List HitRecord) (l : LimiterState) (t : Nat)
    (req : Request) (sess : Session) (tid : String) (geo : FetchOutcome)
    (now : String) (hrate : (rateCheck l t).1 = false) :
    track ⟨h, l⟩ t req sess tid geo now = (⟨h, (rateCheck l t).2⟩, .tooMany) := by
  cases hE : rateCheck l t with
  | mk b ls =>
      rw [hE] at hrate
      simp only at hrate
      subst hrate
      simp [track, hE]

lemma trackN_in_window (req : Request) (sess : Session) (tid : String)
    (geo : FetchOutcome) (now : String) (t0 : Nat) :
    ∀ (k : Nat) (h : List HitRecord) (c : Nat), 1 ≤ c → c + k ≤ RATE_LIMIT →
      trackN k ⟨h, ⟨t0 + RATE_WINDOW, c⟩⟩ t0 req sess tid geo now
        = ⟨List.replicate k (pingHit req sess tid geo now) ++ h,
           ⟨t0 + RATE_WINDOW, c + k⟩⟩ := by
  intro k
  induction k with
  | zero =>
      intro h c h1 h2
      simp [trackN]
  | succ k ih =>
      intro h c h1 h2
      have hlt : c < RATE_LIMIT := by omega
      have hrc : rateCheck ⟨t0 + RATE_WINDOW, c⟩ t0 = (true, ⟨t0 + RATE_WINDOW, c + 1⟩) := by
        have hexp : ¬ (t0 + RATE_WINDOW ≤ t0) := by
          simp [RATE_WINDOW]
        simp [rateCheck, hexp, hlt]
      have hstep := track_allowed h ⟨t0 + RATE_WINDOW, c⟩ t0 req sess tid geo now
        (by rw [hrc])
      rw [hrc] at hstep
      simp only [trackN]
      rw [hstep]
      rw [ih (pingHit req sess tid geo now :: h) (c + 1) (by omega) (by omega)]
      simp only [ServerState.mk.injEq, LimiterState.mk.injEq]
      refine ⟨?_, ?_, ?_⟩
      · rw [List.replicate_succ', List.append_assoc]
        rfl
      · trivial
      · omega

/-! ## Claim theorems -/

/-- C1: beacon recording is identifier-agnostic and not gated on artifact
existence.  Whenever the rate check passes, `/track/<tid>` inserts a
HitRecord for `tid`, whatever `tid` is (the handler consults no set of
issued identifiers and no storage); and `/proxy_image` inserts the hit
even when the artifact file is absent from storage, in which case the
response is 404 but the hit is already recorded. -/
theorem beacon_recording_identifier_agnostic
    (st : ServerState) (t : Nat) (req : Request) (sess : Session)
    (tid : String) (geo : FetchOutcome) (now : String)
    (storage : List String) (fname : String)
    (hrate : (rateCheck st.limiter t).1 = true)
    (habsent : fname ∉ storage) :
    (track st t req sess tid geo now).1.hits
        = pingHit req sess tid geo now :: st.hits
    ∧ (proxy_image st storage req sess tid fname geo now).1.hits
        = pingHit req sess tid geo now :: st.hits
    ∧ (proxy_image st storage req sess tid fname geo now).2 = .notFound := by
  refine ⟨?_, ?_, ?_⟩
  · cases st with
    | mk h l =>
        rw [track_allowed h l t req sess tid geo now hrate]
  · simp [proxy_image, insert_hit, habsent, pingHit]
  · simp [proxy_image, insert_hit, habsent]

/-- Witness for C1 at a concrete never-issued identifier and empty
storage. -/
theorem beacon_recording_identifier_agnostic_witness :
    ((rateCheck (ServerState.mk [] initLimiter).limiter 0).1 = true
      ∧ "tracked_zz.png" ∉ ([] : List String))
    ∧ ((track ⟨[], initLimiter⟩ 0 ⟨none, "203.0.113.5", some "TestUA/1.0", none⟩
          ⟨false, none, none⟩ "neverIssuedId" .err "2026-01-01T00:00:00").1.hits
        = pingHit ⟨none, "203.0.113.5", some "TestUA/1.0", none⟩ ⟨false, none, none⟩
            "neverIssuedId" .err "2026-01-01T00:00:00" :: ([] : List HitRecord)
      ∧ (proxy_image ⟨[], initLimiter⟩ [] ⟨none, "203.0.113.5", some "TestUA/1.0", none⟩
          ⟨false, none, none⟩ "neverIssuedId" "tracked_zz.png" .err "2026-01-01T00:00:00").1.hits
        = pingHit ⟨none, "203.0.113.5", some "TestUA/1.0", none⟩ ⟨false, none, none⟩
            "neverIssuedId" .err "2026-01-01T00:00:00" :: ([] : List HitRecord)
      ∧ (proxy_image ⟨[], initLimiter⟩ [] ⟨none, "203.0.113.5", some "TestUA/1.0", none⟩
          ⟨false, none, none⟩ "neverIssuedId" "tracked_zz.png" .err "2026-01-01T00:00:00").2
        = .notFound) :=
  ⟨⟨by decide, by decide⟩,
   beacon_recording_identifier_agnostic ⟨[], initLimiter⟩ 0
     ⟨none, "203.0.113.5", some "TestUA/1.0", none⟩ ⟨false, none, none⟩
     "neverIssuedId" .err "2026-01-01T00:00:00" [] "tracked_zz.png"
     (by decide) (by decide)⟩

/-- C2: with the `60 per minute` fixed-window ceiling on `/track`, 60
pings from one address inside one window are all recorded; the 61st ping
of the same window is answered with the throttling response and inserts no
HitRecord (the view body — enrichment and recording — is never entered);
the first ping of the next window succeeds and is recorded. -/
theorem track_rate_ceiling (h0 : List HitRecord) (t0 t61 t62 : Nat)
    (req : Request) (sess : Session) (tid : String) (geo : FetchOutcome)
    (now : String)
    (hw : t61 < t0 + RATE_WINDOW) (hn : t0 + RATE_WINDOW ≤ t62) :
    (trackN 60 ⟨h0, initLimiter⟩ t0 req sess tid geo now).hits.length
        = h0.length + 60
    ∧ (track (trackN 60 ⟨h0, initLimiter⟩ t0 req sess tid geo now) t61 req sess tid geo now).2
        = .tooMany
    ∧ (track (trackN 60 ⟨h0, initLimiter⟩ t0 req sess tid geo now) t61 req sess tid geo now).1.hits
        = (trackN 60 ⟨h0, initLimiter⟩ t0 req sess tid geo now).hits
    ∧ (track (trackN 60 ⟨h0, initLimiter⟩ t0 req sess tid geo now) t62 req sess tid geo now).2
        = .bytes PNG1 "image/png"
    ∧ (track (trackN 60 ⟨h0, initLimiter⟩ t0 req sess tid geo now) t62 req sess tid geo now).1.hits.length
        = (trackN 60 ⟨h0, initLimiter⟩ t0 req sess tid geo now).hits.length + 1 := by
  simp only [RATE_WINDOW] at hw hn
  have hrc0 : rateCheck initLimiter t0 = (true, ⟨t0 + RATE_WINDOW, 1⟩) := by
    simp [rateCheck, initLimiter]
  have hfirst := track_allowed h0 initLimiter t0 req sess tid geo now (by rw [hrc0])
  rw [hrc0] at hfirst
  have h60 : trackN 60 ⟨h0, initLimiter⟩ t0 req sess tid geo now
      = ⟨List.replicate 59 (pingHit req sess tid geo now)
            ++ (pingHit req sess tid geo now :: h0),
         ⟨t0 + RATE_WINDOW, 60⟩⟩ := by
    have hunf : trackN 60 ⟨h0, initLimiter⟩ t0 req sess tid geo now
        = trackN 59 (track ⟨h0, initLimiter⟩ t0 req sess tid geo now).1
            t0 req sess tid geo now := rfl
    rw [hunf, hfirst]
    have h59 := trackN_in_window req sess tid geo now t0 59
      (pingHit req sess tid geo now :: h0) 1 (by omega) (by simp [RATE_LIMIT])
    simpa using h59
  have hrc61 : rateCheck ⟨t0 + RATE_WINDOW, 60⟩ t61 = (false, ⟨t0 + RATE_WINDOW, 60⟩) := by
    have hexp : ¬ (t0 + RATE_WINDOW ≤ t61) := by
      simp only [RATE_WINDOW]
      omega
    simp [rateCheck, hexp, RATE_LIMIT]
  have hden := track_denied
    (List.replicate 59 (pingHit req sess tid geo now) ++ (pingHit req sess tid geo now :: h0))
    ⟨t0 + RATE_WINDOW, 60⟩ t61 req sess tid geo now (by rw [hrc61])
  rw [hrc61] at hden
  have hrc62 : (rateCheck ⟨t0 + RATE_WINDOW, 60⟩ t62).1 = true := by
    have hexp : t0 + RATE_WINDOW ≤ t62 := by
      simp only [RATE_WINDOW]
      omega
    simp [rateCheck, hexp]
  have hall := track_allowed
    (List.replicate 59 (pingHit req sess tid geo now) ++ (pingHit req sess tid geo now :: h0))
    ⟨t0 + RATE_WINDOW, 60⟩ t62 req sess tid geo now hrc62
  refine ⟨?_, ?_, ?_, ?_, ?_⟩
  · rw [h60]
    simp only [List.length_append, List.length_replicate, List.length_cons]
    omega
  · rw [h60, hden]
  · rw [h60, hden]
  · rw [h60, hall]
  · rw [h60, hall]
    simp only [List.length_cons]

/-- Witness for C2: address pings at second 0 (sixty times), second 30
(rejected 61st) and second 60 (first of the next window). -/
theorem track_rate_ceiling_witness :
    ((30 : Nat) < 0 + RATE_WINDOW ∧ (0 : Nat) + RATE_WINDOW ≤ 60)
    ∧ ((trackN 60 ⟨[], initLimiter⟩ 0 ⟨none, "203.0.113.5", some "TestUA/1.0", none⟩
          ⟨false, none, none⟩ "abcd1234" .err "2026-01-01T00:00:00").hits.length
        = List.length ([] : List HitRecord) + 60
      ∧ (track (trackN 60 ⟨[], initLimiter⟩ 0 ⟨none, "203.0.113.5", some "TestUA/1.0", none⟩
          ⟨false, none, none⟩ "abcd1234" .err "2026-01-01T00:00:00") 30
          ⟨none, "203.0.113.5", some "TestUA/1.0", none⟩ ⟨false, none, none⟩
          "abcd1234" .err "2026-01-01T00:00:00").2 = .tooMany
      ∧ (track (trackN 60 ⟨[], initLimiter⟩ 0 ⟨none, "203.0.113.5", some "TestUA/1.0", none⟩
          ⟨false, none, none⟩ "abcd1234" .err "2026-01-01T00:00:00") 30
          ⟨none, "203.0.113.5", some "TestUA/1.0", none⟩ ⟨false, none, none⟩
          "abcd1234" .err "2026-01-01T00:00:00").1.hits
        = (trackN 60 ⟨[], initLimiter⟩ 0 ⟨none, "203.0.113.5", some "TestUA/1.0", none⟩
          ⟨false, none, none⟩ "abcd1234" .err "2026-01-01T00:00:00").hits
      ∧ (track (trackN 60 ⟨[], initLimiter⟩ 0 ⟨none, "203.0.113.5", some "TestUA/1.0", none⟩
          ⟨false, none, none⟩ "abcd1234" .err "2026-01-01T00:00:00") 60
          ⟨none, "203.0.113.5", some "TestUA/1.0", none⟩ ⟨false, none, none⟩
          "abcd1234" .err "2026-01-01T00:00:00").2 = .bytes PNG1 "image/png"
      ∧ (track (trackN 60 ⟨[], initLimiter⟩ 0 ⟨none, "203.0.113.5", some "TestUA/1.0", none⟩
          ⟨false, none, none⟩ "abcd1234" .err "2026-01-01T00:00:00") 60
          ⟨none, "203.0.113.5", some "TestUA/1.0", none⟩ ⟨false, none, none⟩
          "abcd1234" .err "2026-01-01T00:00:00").1.hits.length
        = (trackN 60 ⟨[], initLimiter⟩ 0 ⟨none, "203.0.113.5", some "TestUA/1.0", none⟩
          ⟨false, none, none⟩ "abcd1234" .err "2026-01-01T00:00:00").hits.length + 1) :=
  ⟨⟨by decide, by decide⟩,
   track_rate_ceiling [] 0 30 60 ⟨none, "203.0.113.5", some "TestUA/1.0", none⟩
     ⟨false, none, none⟩ "abcd1234" .err "2026-01-01T00:00:00"
     (by decide) (by decide)⟩

/-- C3: the fallback geo resolver is a total function (it never raises)
with the bounded request timeout of 4 seconds; every failed outcome —
exception (timeout, connection error, malformed body) or a non-success
status — yields the all-None quintuple, so the HitRecord recorded by
`track` has all five location fields null while the beacon response is
still served. -/
theorem geo_resolver_degrades_to_unknown
    (o : FetchOutcome) (st : ServerState) (t : Nat) (req : Request)
    (sess : Session) (tid now : String)
    (ho : geoFailed o) (hrate : (rateCheck st.limiter t).1 = true) :
    GEO_TIMEOUT = 4
    ∧ geo_ip o = (none, none, none, none, none)
    ∧ (track st t req sess tid o now).1.hits
        = pingHit req sess tid o now :: st.hits
    ∧ (pingHit req sess tid o now).lat = none
    ∧ (pingHit req sess tid o now).lon = none
    ∧ (pingHit req sess tid o now).city = none
    ∧ (pingHit req sess tid o now).region = none
    ∧ (pingHit req sess tid o now).country = none
    ∧ (track st t req sess tid o now).2 = .bytes PNG1 "image/png" := by
  have hg : geo_ip o = (none, none, none, none, none) := by
    cases o with
    | err => rfl
    | ok j =>
        have hs : ¬ j.status = some "success" := ho
        simp [geo_ip, hs]
  cases st with
  | mk h l =>
      rw [track_allowed h l t req sess tid o now hrate]
      refine ⟨rfl, hg, rfl, ?_, ?_, ?_, ?_, ?_, rfl⟩ <;>
        simp [pingHit, mkHit, hg]

/-- Witness for C3: a decoded ip-api body whose status is `"fail"` but
which still carries location fields — they are all discarded. -/
theorem geo_resolver_degrades_to_unknown_witness :
    (geoFailed (.ok ⟨some "fail", some 48, some 2, some "Paris", some "IDF", some "France"⟩)
      ∧ (rateCheck (ServerState.mk [] initLimiter).limiter 7).1 = true)
    ∧ (GEO_TIMEOUT = 4
      ∧ geo_ip (.ok ⟨some "fail", some 48, some 2, some "Paris", some "IDF", some "France"⟩)
          = (none, none, none, none, none)
      ∧ (track ⟨[], initLimiter⟩ 7 ⟨none, "203.0.113.5", some "TestUA/1.0", none⟩
            ⟨false, none, none⟩ "abcd1234"
            (.ok ⟨some "fail", some 48, some 2, some "Paris", some "IDF", some "France"⟩)
            "2026-01-01T00:00:00").1.hits
          = pingHit ⟨none, "203.0.113.5", some "TestUA/1.0", none⟩ ⟨false, none, none⟩
              "abcd1234"
              (.ok ⟨some "fail", some 48, some 2, some "Paris", some "IDF", some "France"⟩)
              "2026-01-01T00:00:00" :: ([] : List HitRecord)
      ∧ (pingHit ⟨none, "203.0.113.5", some "TestUA/1.0", none⟩ ⟨false, none, none⟩
            "abcd1234"
            (.ok ⟨some "fail", some 48, some 2, some "Paris", some "IDF", some "France"⟩)
            "2026-01-01T00:00:00").lat = none
      ∧ (pingHit ⟨none, "203.0.113.5", some "TestUA/1.0", none⟩ ⟨false, none, none⟩
            "abcd1234"
            (.ok ⟨some "fail", some 48, some 2, some "Paris", some "IDF", some "France"⟩)
            "2026-01-01T00:00:00").lon = none
      ∧ (pingHit ⟨none, "203.0.113.5", some "TestUA/1.0", none⟩ ⟨false, none, none⟩
            "abcd1234"
            (.ok ⟨some "fail", some 48, some 2, some "Paris", some "IDF", some "France"⟩)
            "2026-01-01T00:00:00").city = none
      ∧ (pingHit ⟨none, "203.0.113.5", some "TestUA/1.0", none⟩ ⟨false, none, none⟩
            "abcd1234"
            (.ok ⟨some "fail", some 48, some 2, some "Paris", some "IDF", some "France"⟩)
            "2026-01-01T00:00:00").region = none
      ∧ (pingHit ⟨none, "203.0.113.5", some "TestUA/1.0", none⟩ ⟨false, none, none⟩
            "abcd1234"
            (.ok ⟨some "fail", some 48, some 2, some "Paris", some "IDF", some "France"⟩)
            "2026-01-01T00:00:00").country = none
      ∧ (track ⟨[], initLimiter⟩ 7 ⟨none, "203.0.113.5", some "TestUA/1.0", none⟩
            ⟨false, none, none⟩ "abcd1234"
            (.ok ⟨some "fail", some 48, some 2, some "Paris", some "IDF", some "France"⟩)
            "2026-01-01T00:00:00").2 = .bytes PNG1 "image/png") :=
  ⟨⟨by decide, by decide⟩,
   geo_resolver_degrades_to_unknown
     (.ok ⟨some "fail", some 48, some 2, some "Paris", some "IDF", some "France"⟩)
     ⟨[], initLimiter⟩ 7 ⟨none, "203.0.113.5", some "TestUA/1.0", none⟩
     ⟨false, none, none⟩ "abcd1234" "2026-01-01T00:00:00"
     (by decide) (by decide)⟩

/-- C10: the `/track` response is one fixed constant — the same 1×1 PNG
byte string with content type image/png — for every rate-passed request,
independent of identifier, headers, session, store contents and geo
outcome. -/
theorem track_response_uniform
    (st st' : ServerState) (t t' : Nat) (req req' : Request)
    (sess sess' : Session) (tid tid' now now' : String)
    (geo geo' : FetchOutcome)
    (hrate : (rateCheck st.limiter t).1 = true)
    (hrate' : (rateCheck st'.limiter t').1 = true) :
    (track st t req sess tid geo now).2 = .bytes PNG1 "image/png"
    ∧ (track st t req sess tid geo now).2
        = (track st' t' req' sess' tid' geo' now').2 := by
  cases st with
  | mk h l =>
      cases st' with
      | mk h' l' =>
          rw [track_allowed h l t req sess tid geo now hrate,
            track_allowed h' l' t' req' sess' tid' geo' now' hrate']
          exact ⟨rfl, rfl⟩

/-- Witness for C10 at two thoroughly different requests. -/
theorem track_response_uniform_witness :
    ((rateCheck (ServerState.mk [] initLimiter).limiter 0).1 = true
      ∧ (rateCheck (ServerState.mk [] ⟨100, 3⟩).limiter 40).1 = true)
    ∧ ((track ⟨[], initLimiter⟩ 0 ⟨none, "203.0.113.5", some "TestUA/1.0", none⟩
          ⟨false, none, none⟩ "abcd1234" .err "2026-01-01T00:00:00").2
        = .bytes PNG1 "image/png"
      ∧ (track ⟨[], initLimiter⟩ 0 ⟨none, "203.0.113.5", some "TestUA/1.0", none⟩
          ⟨false, none, none⟩ "abcd1234" .err "2026-01-01T00:00:00").2
        = (track ⟨[], ⟨100, 3⟩⟩ 40 ⟨some "198.51.100.9, 10.0.0.1", "10.0.0.2", none, some "7"⟩
            ⟨true, some "admin", some "admin"⟩ "zzzzzzzz"
            (.ok ⟨some "success", some 48, some 2, some "Paris", some "IDF", some "France"⟩)
            "2027-12-31T23:59:59").2) :=
  ⟨⟨by decide, by decide⟩,
   track_response_uniform ⟨[], initLimiter⟩ ⟨[], ⟨100, 3⟩⟩ 0 40
     ⟨none, "203.0.113.5", some "TestUA/1.0", none⟩
     ⟨some "198.51.100.9, 10.0.0.1", "10.0.0.2", none, some "7"⟩
     ⟨false, none, none⟩ ⟨true, some "admin", some "admin"⟩
     "abcd1234" "zzzzzzzz" "2026-01-01T00:00:00" "2027-12-31T23:59:59"
     .err (.ok ⟨some "success", some 48, some 2, some "Paris", some "IDF", some "France"⟩)
     (by decide) (by decide)⟩

set_option maxRecDepth 20000

/-- C4: every generated SVG artifact is the fixed template instantiated at
the issued identifier: it is the well-formed markup of the template
decomposition, carries the visible human-readable label
`Tracked SVG ID: <id>`, contains exactly one `<image` element opening,
that element is declared with width and height 1 and its `href` equal to
the callback URL, and the callback URL embeds the issued identifier.  The
hypotheses record that neither the identifier (shortuuid output, an
alphanumeric token) nor the URL base contains `<`. -/
theorem svg_artifact_single_image_ref (tid base : String)
    (htid : '<' ∉ tid.data) (hbase : '<' ∉ base.data) :
    makeSvg tid (trackUrl base tid)
        = svgPre ++ tid ++ svgMid ++ trackUrl base tid ++ svgSuf
    ∧ imageRefCount (makeSvg tid (trackUrl base tid)) = 1
    ∧ (∃ a b, (makeSvg tid (trackUrl base tid)).data
          = a ++ ("Tracked SVG ID: " ++ tid).data ++ b)
    ∧ (∃ a b, (makeSvg tid (trackUrl base tid)).data
          = a ++ ("<image x=\"0\" y=\"0\" width=\"1\" height=\"1\" href=\""
              ++ trackUrl base tid ++ "\" />").data ++ b)
    ∧ (∃ a b, (trackUrl base tid).data = a ++ tid.data ++ b) := by
  have hurl : '<' ∉ (trackUrl base tid).data := by
    intro hm
    simp only [trackUrl, String.data_append, List.mem_append] at hm
    rcases hm with (hm | hm) | hm
    · exact hbase hm
    · exact absurd hm (by decide)
    · exact htid hm
  refine ⟨rfl, ?_, ?_, ?_, ?_⟩
  · have hp : imgPat = '<' :: ['i', 'm', 'a', 'g', 'e'] := rfl
    simp only [imageRefCount, makeSvg, String.data_append, hp, List.append_assoc]
    rw [countOcc_append_split '<' ['i', 'm', 'a', 'g', 'e'] svgPre.data _ (by decide)]
    rw [countOcc_append_left_free ['i', 'm', 'a', 'g', 'e'] _ htid]
    rw [countOcc_append_split '<' ['i', 'm', 'a', 'g', 'e'] svgMid.data _ (by decide)]
    rw [countOcc_append_left_free ['i', 'm', 'a', 'g', 'e'] _ hurl]
    have h1 : countOcc ('<' :: ['i', 'm', 'a', 'g', 'e']) svgPre.data = 0 := by decide
    have h2 : countOcc ('<' :: ['i', 'm', 'a', 'g', 'e']) svgMid.data = 1 := by decide
    have h3 : countOcc ('<' :: ['i', 'm', 'a', 'g', 'e']) svgSuf.data = 0 := by decide
    rw [h1, h2, h3]
  · refine ⟨"<?xml version=\"1.0\" encoding=\"utf-8\"?>\n<svg xmlns=\"http://www.w3.org/2000/svg\" width=\"800\" height=\"600\">\n  <rect width=\"100%\" height=\"100%\" fill=\"#fff\"/>\n  <text x=\"10\" y=\"20\" font-size=\"14\">".data,
      (svgMid ++ (trackUrl base tid ++ svgSuf)).data, ?_⟩
    have hsplit : svgPre.data
        = ("<?xml version=\"1.0\" encoding=\"utf-8\"?>\n<svg xmlns=\"http://www.w3.org/2000/svg\" width=\"800\" height=\"600\">\n  <rect width=\"100%\" height=\"100%\" fill=\"#fff\"/>\n  <text x=\"10\" y=\"20\" font-size=\"14\">").data
          ++ ("Tracked SVG ID: ").data := by decide
    simp only [makeSvg, String.data_append, List.append_assoc, hsplit]
  · refine ⟨(svgPre ++ (tid ++ "</text>\n  ")).data, ("\n</svg>").data, ?_⟩
    have hmid : svgMid.data
        = ("</text>\n  ").data
          ++ ("<image x=\"0\" y=\"0\" width=\"1\" height=\"1\" href=\"").data := by
      decide
    have hsuf : svgSuf.data = ("\" />").data ++ ("\n</svg>").data := by decide
    simp only [makeSvg, String.data_append, List.append_assoc, hmid, hsuf]
  · refine ⟨(base ++ "/track/").data, [], ?_⟩
    simp [trackUrl, String.data_append, List.append_assoc]

/-- Witness for C4 at the identifier `abcd1234` and a concrete base URL. -/
theorem svg_artifact_single_image_ref_witness :
    ('<' ∉ ("abcd1234" : String).data ∧ '<' ∉ ("http://localhost:5000" : String).data)
    ∧ (makeSvg "abcd1234" (trackUrl "http://localhost:5000" "abcd1234")
          = svgPre ++ "abcd1234" ++ svgMid
              ++ trackUrl "http://localhost:5000" "abcd1234" ++ svgSuf
      ∧ imageRefCount (makeSvg "abcd1234" (trackUrl "http://localhost:5000" "abcd1234")) = 1
      ∧ (∃ a b, (makeSvg "abcd1234" (trackUrl "http://localhost:5000" "abcd1234")).data
            = a ++ ("Tracked SVG ID: " ++ "abcd1234").data ++ b)
      ∧ (∃ a b, (makeSvg "abcd1234" (trackUrl "http://localhost:5000" "abcd1234")).data
            = a ++ ("<image x=\"0\" y=\"0\" width=\"1\" height=\"1\" href=\""
                ++ trackUrl "http://localhost:5000" "abcd1234" ++ "\" />").data ++ b)
      ∧ (∃ a b, (trackUrl "http://localhost:5000" "abcd1234").data
            = a ++ ("abcd1234" : String).data ++ b)) :=
  ⟨⟨by decide, by decide⟩,
   svg_artifact_single_image_ref "abcd1234" "http://localhost:5000"
     (by decide) (by decide)⟩

/-- Counterexample to C5: a generation request with the unrecognized
format `gif` is not rejected before any file is written — the dispatch
sends it to the raster branch, three files are written, and the response
is the ordinary success page.  No UnsupportedFormat error path exists. -/
theorem unsupported_format_counterexample :
    makeBranch "gif" = MakeMode.png
    ∧ (make ⟨true, some "admin", some "admin"⟩ "gif" "abcd1234efgh5678ijkl56"
        "http://localhost:5000").files.length = 3
    ∧ (make ⟨true, some "admin", some "admin"⟩ "gif" "abcd1234efgh5678ijkl56"
        "http://localhost:5000").resp = .page "made_file.html" [] := by
  refine ⟨rfl, ?_, ?_⟩ <;> rfl

/-- Amended C5: the handler recognizes no unsupported-format condition.
For a logged-in session, any requested mode other than `svg` falls through
to the raster (PNG) branch: the identifier is issued and used, the three
raster-branch files are written, and the request succeeds with the usual
success page — no error is surfaced and no write is prevented. -/
theorem non_svg_mode_falls_through_to_png (sess : Session) (mode u base : String)
    (hauth : sess.admin = true ∨ sess.username.isSome = true)
    (hmode : mode ≠ "svg") :
    makeBranch mode = MakeMode.png
    ∧ (make sess mode u base).files.map Prod.fst
        = ["tracked_" ++ issueId u ++ ".png",
           "wrapped_" ++ issueId u ++ ".html",
           "wrapped_" ++ issueId u ++ ".pdf"]
    ∧ (make sess mode u base).resp = .page "made_file.html" []
    ∧ (make sess mode u base).track_id = issueId u := by
  have hb : makeBranch mode = MakeMode.png := by
    simp [makeBranch, hmode]
  have hne : ¬ (sess.admin = false ∧ sess.username = none) := by
    rcases hauth with ha | hu
    · intro hcontra
      rw [ha] at hcontra
      exact absurd hcontra.1 (by simp)
    · intro hcontra
      rw [hcontra.2] at hu
      simp at hu
  refine ⟨hb, ?_, ?_, ?_⟩ <;>
    simp [make, hb, hne]

/-- Witness for the amended C5 at the unrecognized mode `gif`. -/
theorem non_svg_mode_falls_through_to_png_witness :
    (((⟨true, some "admin", some "admin"⟩ : Session).admin = true
        ∨ (⟨true, some "admin", some "admin"⟩ : Session).username.isSome = true)
      ∧ ("gif" : String) ≠ "svg")
    ∧ (makeBranch "gif" = MakeMode.png
      ∧ (make ⟨true, some "admin", some "admin"⟩ "gif" "abcd1234efgh5678ijkl56"
            "http://localhost:5000").files.map Prod.fst
          = ["tracked_" ++ issueId "abcd1234efgh5678ijkl56" ++ ".png",
             "wrapped_" ++ issueId "abcd1234efgh5678ijkl56" ++ ".html",
             "wrapped_" ++ issueId "abcd1234efgh5678ijkl56" ++ ".pdf"]
      ∧ (make ⟨true, some "admin", some "admin"⟩ "gif" "abcd1234efgh5678ijkl56"
            "http://localhost:5000").resp = .page "made_file.html" []
      ∧ (make ⟨true, some "admin", some "admin"⟩ "gif" "abcd1234efgh5678ijkl56"
            "http://localhost:5000").track_id = issueId "abcd1234efgh5678ijkl56") :=
  ⟨⟨by decide, by decide⟩,
   non_svg_mode_falls_through_to_png ⟨true, some "admin", some "admin"⟩
     "gif" "abcd1234efgh5678ijkl56" "http://localhost:5000"
     (by decide) (by decide)⟩

/-- Counterexample to C6: with the PDF present in storage, the
click/download endpoint `dl_pdf` answers a file-attachment stream, and
with it absent a 404 — in neither case an HTTP redirect; the hit is
recorded. -/
theorem dl_pdf_no_redirect_counterexample :
    (dl_pdf ⟨[], initLimiter⟩ ["wrapped_abcd1234.pdf"]
        ⟨none, "203.0.113.5", some "TestUA/1.0", none⟩ ⟨false, none, none⟩
        "abcd1234" "wrapped_abcd1234.pdf" .err "2026-01-01T00:00:00").2
      = .file "wrapped_abcd1234.pdf" "application/pdf" true
    ∧ (dl_pdf ⟨[], initLimiter⟩ ["wrapped_abcd1234.pdf"]
        ⟨none, "203.0.113.5", some "TestUA/1.0", none⟩ ⟨false, none, none⟩
        "abcd1234" "wrapped_abcd1234.pdf" .err "2026-01-01T00:00:00").2.isRedirect
      = false
    ∧ (dl_pdf ⟨[], initLimiter⟩ []
        ⟨none, "203.0.113.5", some "TestUA/1.0", none⟩ ⟨false, none, none⟩
        "abcd1234" "wrapped_abcd1234.pdf" .err "2026-01-01T00:00:00").2.isRedirect
      = false
    ∧ (dl_pdf ⟨[], initLimiter⟩ ["wrapped_abcd1234.pdf"]
        ⟨none, "203.0.113.5", some "TestUA/1.0", none⟩ ⟨false, none, none⟩
        "abcd1234" "wrapped_abcd1234.pdf" .err "2026-01-01T00:00:00").1.hits.length
      = 1 := by
  refine ⟨?_, ?_, ?_, ?_⟩ <;> decide

/-- Amended C6: every request to the click/download endpoint `dl_pdf`
records the hit (whatever the identifier, and whether or not the file
exists), and the response is the stored PDF streamed as an attachment with
content type application/pdf when the file is present, or a not-found
response otherwise; it is never a redirect. -/
theorem dl_pdf_records_and_streams (st : ServerState) (storage : List String)
    (req : Request) (sess : Session) (tid pdfname : String)
    (geo : FetchOutcome) (now : String) :
    (dl_pdf st storage req sess tid pdfname geo now).1.hits
        = pingHit req sess tid geo now :: st.hits
    ∧ (dl_pdf st storage req sess tid pdfname geo now).2
        = (if pdfname ∈ storage then Resp.file pdfname "application/pdf" true
           else Resp.notFound)
    ∧ (dl_pdf st storage req sess tid pdfname geo now).2.isRedirect = false := by
  refine ⟨?_, ?_, ?_⟩
  · by_cases hmem : pdfname ∈ storage <;>
      simp [dl_pdf, hmem, insert_hit, pingHit, mkHit]
  · by_cases hmem : pdfname ∈ storage <;> simp [dl_pdf, hmem]
  · by_cases hmem : pdfname ∈ storage <;> simp [dl_pdf, hmem, Resp.isRedirect]

/-- Counterexample to C7: a non-admin caller whose own HitRecord is stored
does not receive it — the page endpoint redirects to the login page and
the API endpoint answers 401; neither response carries any rows. -/
theorem logs_not_filtered_counterexample :
    logs ⟨false, some "5", some "alice"⟩
        [⟨"abcd1234", "5", "203.0.113.5", "TestUA/1.0", "2026-01-01T00:00:00Z",
          none, none, none, none, none⟩]
      = .redirect "login"
    ∧ api_logs ⟨false, some "5", some "alice"⟩
        [⟨"abcd1234", "5", "203.0.113.5", "TestUA/1.0", "2026-01-01T00:00:00Z",
          none, none, none, none, none⟩]
      = .jsonError 401
    ∧ (logs ⟨false, some "5", some "alice"⟩
        [⟨"abcd1234", "5", "203.0.113.5", "TestUA/1.0", "2026-01-01T00:00:00Z",
          none, none, none, none, none⟩]).rows = []
    ∧ (api_logs ⟨false, some "5", some "alice"⟩
        [⟨"abcd1234", "5", "203.0.113.5", "TestUA/1.0", "2026-01-01T00:00:00Z",
          none, none, none, none, none⟩]).rows = [] := by
  refine ⟨?_, ?_, ?_, ?_⟩ <;> decide

/-- Amended C7: the hit-listing endpoints apply no per-user filter; they
are admin-only.  A privileged session receives the newest (up to 1000)
stored records regardless of owner — in particular other users' records
within that window; a non-privileged session receives no records at all —
the page endpoint redirects to login and the API endpoint answers 401. -/
theorem logs_admin_only (sess : Session) (store : List HitRecord) :
    (sess.admin = true →
        logs sess store = .page "logs.html" (fetch_hits store 1000)
        ∧ api_logs sess store = .jsonRows (fetch_hits store 1000)
        ∧ ∀ h ∈ store.take 1000, h ∈ (api_logs sess store).rows)
    ∧ (sess.admin = false →
        logs sess store = .redirect "login"
        ∧ api_logs sess store = .jsonError 401
        ∧ (logs sess store).rows = []
        ∧ (api_logs sess store).rows = []) := by
  constructor
  · intro ha
    refine ⟨by simp [logs, ha], by simp [api_logs, ha], ?_⟩
    intro h hm
    simp [api_logs, ha, Resp.rows, fetch_hits, hm]
  · intro ha
    simp [logs, api_logs, ha, Resp.rows]

/-- Witness for the amended C7: an admin session sees the other user's
record; the record's owner, unprivileged, is denied. -/
theorem logs_admin_only_witness :
    ((⟨true, some "admin", some "admin"⟩ : Session).admin = true
      ∧ (⟨false, some "5", some "alice"⟩ : Session).admin = false)
    ∧ ((logs ⟨true, some "admin", some "admin"⟩
          [⟨"abcd1234", "5", "203.0.113.5", "TestUA/1.0", "2026-01-01T00:00:00Z",
            none, none, none, none, none⟩]
        = .page "logs.html" (fetch_hits
            [⟨"abcd1234", "5", "203.0.113.5", "TestUA/1.0", "2026-01-01T00:00:00Z",
              none, none, none, none, none⟩] 1000)
      ∧ api_logs ⟨true, some "admin", some "admin"⟩
          [⟨"abcd1234", "5", "203.0.113.5", "TestUA/1.0", "2026-01-01T00:00:00Z",
            none, none, none, none, none⟩]
        = .jsonRows (fetch_hits
            [⟨"abcd1234", "5", "203.0.113.5", "TestUA/1.0", "2026-01-01T00:00:00Z",
              none, none, none, none, none⟩] 1000)
      ∧ ∀ h ∈ [(⟨"abcd1234", "5", "203.0.113.5", "TestUA/1.0", "2026-01-01T00:00:00Z",
            none, none, none, none, none⟩ : HitRecord)].take 1000,
          h ∈ (api_logs ⟨true, some "admin", some "admin"⟩
            [⟨"abcd1234", "5", "203.0.113.5", "TestUA/1.0", "2026-01-01T00:00:00Z",
              none, none, none, none, none⟩]).rows)
    ∧ (logs ⟨false, some "5", some "alice"⟩
          [⟨"abcd1234", "5", "203.0.113.5", "TestUA/1.0", "2026-01-01T00:00:00Z",
            none, none, none, none, none⟩]
        = .redirect "login"
      ∧ api_logs ⟨false, some "5", some "alice"⟩
          [⟨"abcd1234", "5", "203.0.113.5", "TestUA/1.0", "2026-01-01T00:00:00Z",
            none, none, none, none, none⟩]
        = .jsonError 401
      ∧ (logs ⟨false, some "5", some "alice"⟩
          [⟨"abcd1234", "5", "203.0.113.5", "TestUA/1.0", "2026-01-01T00:00:00Z",
            none, none, none, none, none⟩]).rows = []
      ∧ (api_logs ⟨false, some "5", some "alice"⟩
          [⟨"abcd1234", "5", "203.0.113.5", "TestUA/1.0", "2026-01-01T00:00:00Z",
            none, none, none, none, none⟩]).rows = [])) :=
  ⟨⟨by decide, by decide⟩,
   (logs_admin_only ⟨true, some "admin", some "admin"⟩
      [⟨"abcd1234", "5", "203.0.113.5", "TestUA/1.0", "2026-01-01T00:00:00Z",
        none, none, none, none, none⟩]).1 (by decide),
   (logs_admin_only ⟨false, some "5", some "alice"⟩
      [⟨"abcd1234", "5", "203.0.113.5", "TestUA/1.0", "2026-01-01T00:00:00Z",
        none, none, none, none, none⟩]).2 (by decide)⟩

/-- Counterexample to C8's regeneration clause: two generation requests
whose shortuuid draws share the first 8 characters are both issued the
identifier `abcd1234`; the second identifier is used as-is — the artifact
files of the second request are named with it — although it collides with
the previously issued one.  No collision check or regeneration exists. -/
theorem id_collision_not_regenerated_counterexample :
    (make ⟨true, some "admin", some "admin"⟩ "svg" "abcd1234WWWWWWWWWWWWWW"
        "http://localhost:5000").track_id = "abcd1234"
    ∧ (make ⟨true, some "admin", some "admin"⟩ "png" "abcd1234XXXXXXXXXXXXXX"
        "http://localhost:5000").track_id = "abcd1234"
    ∧ (make ⟨true, some "admin", some "admin"⟩ "png" "abcd1234XXXXXXXXXXXXXX"
        "http://localhost:5000").files.map Prod.fst
      = ["tracked_abcd1234.png", "wrapped_abcd1234.html", "wrapped_abcd1234.pdf"] := by
  refine ⟨?_, ?_, ?_⟩ <;> rfl

/-- Amended C8: the issued identifier is exactly the first 8 characters of
the drawn shortuuid — so 8 characters whenever the draw has at least 8 —
and issuing consults no history: the identifier depends only on the draw
(draws sharing a first-8-character prefix yield the same identifier), and
a logged-in generation request uses it without any collision check. -/
theorem issue_id_eight_chars_no_regeneration (u v : String)
    (hu : 8 ≤ u.length) (huv : u.take 8 = v.take 8) :
    (issueId u).length = 8
    ∧ issueId u = issueId v
    ∧ ∀ (sess : Session) (mode base : String), sess.admin = true →
        (make sess mode u base).track_id = issueId u := by
  refine ⟨?_, huv, ?_⟩
  · have hu' : 8 ≤ u.data.length := hu
    rw [issueId, String.take_eq]
    rw [String.length_mk, List.length_take]
    omega
  · intro sess mode base ha
    have hne : ¬ (sess.admin = false ∧ sess.username = none) := by
      intro hc
      rw [ha] at hc
      exact absurd hc.1 (by simp)
    by_cases hm : mode = "svg" <;>
      simp [make, makeBranch, hm, hne]

/-- Witness for the amended C8 at two colliding shortuuid draws. -/
theorem issue_id_eight_chars_no_regeneration_witness :
    (8 ≤ ("abcd1234WWWWWWWWWWWWWW" : String).length
      ∧ ("abcd1234WWWWWWWWWWWWWW" : String).take 8
          = ("abcd1234XXXXXXXXXXXXXX" : String).take 8)
    ∧ ((issueId "abcd1234WWWWWWWWWWWWWW").length = 8
      ∧ issueId "abcd1234WWWWWWWWWWWWWW" = issueId "abcd1234XXXXXXXXXXXXXX"
      ∧ ∀ (sess : Session) (mode base : String), sess.admin = true →
          (make sess mode "abcd1234WWWWWWWWWWWWWW" base).track_id
            = issueId "abcd1234WWWWWWWWWWWWWW") :=
  ⟨⟨by decide, by decide⟩,
   issue_id_eight_chars_no_regeneration "abcd1234WWWWWWWWWWWWWW"
     "abcd1234XXXXXXXXXXXXXX" (by decide) (by decide)⟩

/-- C9: `download_generated` answers 404 exactly when the name is absent
from storage, and otherwise streams the file as an attachment with the
content type derived from the lowercased name's extension: svg→image/svg+xml,
png→image/png, html→text/html, pdf→application/pdf, and
application/octet-stream for any other extension (tested in that order). -/
theorem download_content_type (storage : List String) (name : String) :
    (name ∉ storage → download_generated storage name = .notFound)
    ∧ (name ∈ storage →
        download_generated storage name = .file name (mimeFor name) true)
    ∧ (endsWithStr (lowerStr name) ".svg" = true → mimeFor name = "image/svg+xml")
    ∧ (endsWithStr (lowerStr name) ".svg" = false →
        endsWithStr (lowerStr name) ".png" = true → mimeFor name = "image/png")
    ∧ (endsWithStr (lowerStr name) ".svg" = false →
        endsWithStr (lowerStr name) ".png" = false →
        endsWithStr (lowerStr name) ".html" = true → mimeFor name = "text/html")
    ∧ (endsWithStr (lowerStr name) ".svg" = false →
        endsWithStr (lowerStr name) ".png" = false →
        endsWithStr (lowerStr name) ".html" = false →
        endsWithStr (lowerStr name) ".pdf" = true → mimeFor name = "application/pdf")
    ∧ (endsWithStr (lowerStr name) ".svg" = false →
        endsWithStr (lowerStr name) ".png" = false →
        endsWithStr (lowerStr name) ".html" = false →
        endsWithStr (lowerStr name) ".pdf" = false →
        mimeFor name = "application/octet-stream") := by
  refine ⟨?_, ?_, ?_, ?_, ?_, ?_, ?_⟩
  · intro h1
    simp [download_generated, h1]
  · intro h1
    simp [download_generated, h1]
  · intro h1
    simp [mimeFor, h1]
  · intro h1 h2
    simp [mimeFor, h1, h2]
  · intro h1 h2 h3
    simp [mimeFor, h1, h2, h3]
  · intro h1 h2 h3 h4
    simp [mimeFor, h1, h2, h3, h4]
  · intro h1 h2 h3 h4
    simp [mimeFor, h1, h2, h3, h4]

/-- Witness for C9: an uppercase `.PNG` name present in storage is served
as image/png; a missing name yields 404. -/
theorem download_content_type_witness :
    (("tracked_ab.PNG" ∈ (["tracked_ab.PNG"] : List String))
      ∧ endsWithStr (lowerStr "tracked_ab.PNG") ".svg" = false
      ∧ endsWithStr (lowerStr "tracked_ab.PNG") ".png" = true
      ∧ "gone.pdf" ∉ (["tracked_ab.PNG"] : List String))
    ∧ (download_generated ["tracked_ab.PNG"] "tracked_ab.PNG"
        = .file "tracked_ab.PNG" (mimeFor "tracked_ab.PNG") true
      ∧ mimeFor "tracked_ab.PNG" = "image/png"
      ∧ download_generated ["tracked_ab.PNG"] "gone.pdf" = .notFound) :=
  ⟨⟨by decide, by decide, by decide, by decide⟩,
   (download_content_type ["tracked_ab.PNG"] "tracked_ab.PNG").2.1 (by decide),
   (download_content_type ["tracked_ab.PNG"] "tracked_ab.PNG").2.2.2.1
     (by decide) (by decide),
   (download_content_type ["tracked_ab.PNG"] "gone.pdf").1 (by decide)⟩

end ImageTracker
